import Mathlib

/-!
Verification of the instance-provisioning scripts of the `oci` repository
(`oci-control.py`, `launch_staging.py`, `oci_oracle_mcp.py`) against their
natural-language specification.  The Python fragments the claims talk about
are embedded shallowly below: provider calls become function-valued
parameters, lifecycle polling becomes a function over the sequence of states
successive polls return, and exceptions become `Except` values.
-/

namespace OCI

/-! ## Character and string helpers

Python string operations the sources use: `str.lower`, the `in` substring
test, and `str.endswith`.  They are implemented over `List Char` so that
concrete instances evaluate inside the kernel. -/

/-- ASCII lowercasing of one character, as Python `str.lower` acts on the
ASCII identifiers and display names the scripts handle. -/
def lowerChar (c : Char) : Char :=
  if 65 ≤ c.toNat ∧ c.toNat ≤ 90 then Char.ofNat (c.toNat + 32) else c

/-- Lowercase every character of a string (Python `s.lower()`). -/
def lowerStr (s : String) : String := String.mk (s.toList.map lowerChar)

/-- `headRun p s` holds when `p` is an initial run of `s`. -/
def headRun : List Char → List Char → Bool
  | [], _ => true
  | _ :: _, [] => false
  | a :: p, b :: s => a == b && headRun p s

/-- `subChars p s` holds when `p` occurs contiguously inside `s`. -/
def subChars (p : List Char) : List Char → Bool
  | [] => headRun p []
  | c :: s => headRun p (c :: s) || subChars p s

/-- `tailRun p s` holds when `p` is a final run of `s`. -/
def tailRun (p s : List Char) : Bool := headRun p.reverse s.reverse

/-- Python `needle in haystack` on strings. -/
def strContains (haystack needle : String) : Bool :=
  subChars needle.toList haystack.toList

/-- Python `s.endswith(post)`. -/
def strEnds (s post : String) : Bool := tailRun post.toList s.toList

/-! ## Data model -/

/-- An image candidate as the scripts read it (`images[0].id`,
`images[0].display_name`). -/
structure Image where
  id : String
  display_name : String
  deriving Repr, DecidableEq

/-- The argument tuple of a `list_images` call: OS family, OS version, and
the optional shape filter (`oci-control.py` issues the widened query with the
shape argument omitted). -/
structure ImageQuery where
  operating_system : String
  operating_system_version : String
  shape : Option String
  deriving Repr, DecidableEq

/-- A subnet as `launch_staging.py` reads it. -/
structure Subnet where
  id : String
  display_name : String
  availability_domain : String
  deriving Repr, DecidableEq

/-- An instance as the listing and termination handlers read it. -/
structure Inst where
  id : String
  display_name : String
  lifecycle_state : String
  shape : String
  time_created : Option String
  deriving Repr, DecidableEq

/-- A network interface as the IP-discovery steps read it
(`vnic.public_ip` may be null). -/
structure Vnic where
  public_ip : Option String
  deriving Repr, DecidableEq

/-! ## C1: image resolution -/

/-- Image resolution of `launch_ubuntu` (`oci-control.py` lines 31-55):
query images filtered by OS family, version and shape; when the result is
empty, query once more with the shape filter dropped; fail (no image) only
when that widened query is also empty.  The second component records the
queries issued, in order. -/
def launch_ubuntu_resolve_image (list_images : ImageQuery → List Image)
    (os version shape : String) : Option Image × List ImageQuery :=
  let q1 : ImageQuery := ⟨os, version, some shape⟩
  let first := list_images q1
  if first.isEmpty then
    let q2 : ImageQuery := ⟨os, version, none⟩
    ((list_images q2).head?, [q1, q2])
  else
    (first.head?, [q1])

/-- Image resolution of `launch_staging_server` (`launch_staging.py` lines
28-43): a single shape-filtered query; an empty result returns `None`
immediately, with no widened retry. -/
def launch_staging_resolve_image (list_images : ImageQuery → List Image)
    (os version shape : String) : Option Image × List ImageQuery :=
  let q1 : ImageQuery := ⟨os, version, some shape⟩
  ((list_images q1).head?, [q1])

/-- A provider on which the shape-filtered image query is empty while the
widened (shape-free) query is not. -/
def c1_provider : ImageQuery → List Image :=
  fun q =>
    match q.shape with
    | none => [⟨"ocid1.image.widened", "Canonical-Ubuntu-22.04-2024"⟩]
    | some _ => []

/-! ## C2: the poll loop -/

/-- Poll loop of `launch_staging_server` (`launch_staging.py` lines 139-144)
and `launch_ubuntu` (`oci-control.py` lines 119-123): repeatedly call
`get_instance` until the observed `lifecycle_state` equals `"RUNNING"`.
`trace` is the sequence of states successive polls return; the result is the
number of polls issued when `"RUNNING"` is first observed, or `none` when the
trace is exhausted without observing `"RUNNING"` (the loop would keep
polling). -/
def poll_until_running : List String → Option Nat
  | [] => none
  | s :: rest =>
    if s = "RUNNING" then some 1
    else (poll_until_running rest).map (fun n => n + 1)

/-! ## C3: subnet selection -/

/-- Subnet match test of `launch_staging_server` (`launch_staging.py` line
54): Python `selector in subnet.display_name.lower()`, with `"public"` as
the hard-coded selector in the source. -/
def subnet_matches (selector : String) (s : Subnet) : Bool :=
  strContains (lowerStr s.display_name) selector

/-- First matching subnet in enumeration order (`launch_staging.py` lines
52-56: a `for` loop with `break` on the first hit). -/
def find_matching_subnet (selector : String) : List Subnet → Option Subnet
  | [] => none
  | s :: rest =>
    if subnet_matches selector s then some s
    else find_matching_subnet selector rest

/-- Subnet selection of `launch_staging_server` (`launch_staging.py` lines
51-59): first subnet whose lowercased display name contains the selector,
else the first subnet in the returned order, else nothing. -/
def resolve_network (selector : String) (subnets : List Subnet) : Option Subnet :=
  match find_matching_subnet selector subnets with
  | some s => some s
  | none => subnets.head?

/-! ## C4 and C5: instance listing -/

/-- State filtering of `list_instances` (`oci_oracle_mcp.py` lines 287-294):
`if state_filter:` is a Python truthiness test, so a missing argument and an
empty string both leave the list unfiltered; a non-empty filter keeps exactly
the instances whose `lifecycle_state` equals it (`==`, exact and
case-sensitive). -/
def filter_instances : Option String → List Inst → List Inst
  | none, instances => instances
  | some s, instances =>
    if s = "" then instances
    else instances.filter (fun i => i.lifecycle_state == s)

/-- Provider responses the listing consults for one instance's IP: the
attachment lookup (`none` models the call raising) and the interface detail
fetch (`none` models the call raising). -/
structure ProviderEnv where
  vnic_attachments : String → Option (List String)
  get_vnic : String → Option Vnic

/-- Per-instance public-IP resolution of `list_instances` (`oci_oracle_mcp.py`
lines 298-309): the whole lookup sits in a `try` block whose bare `except`
leaves the default `"N/A"`; an empty attachment list skips the fetch; a null
or empty `vnic.public_ip` also yields `"N/A"` (Python `or`). -/
def instance_public_ip (env : ProviderEnv) (instance_id : String) : String :=
  match env.vnic_attachments instance_id with
  | none => "N/A"
  | some [] => "N/A"
  | some (v :: _) =>
    match env.get_vnic v with
    | none => "N/A"
    | some vnic =>
      match vnic.public_ip with
      | none => "N/A"
      | some ip => if ip = "" then "N/A" else ip

/-- One row of the listing result (`oci_oracle_mcp.py` lines 311-318). -/
structure InstanceEntry where
  id : String
  name : String
  state : String
  shape : String
  public_ip : String
  created : String
  deriving Repr, DecidableEq

/-- The entry `list_instances` appends for one instance. -/
def instance_entry (env : ProviderEnv) (i : Inst) : InstanceEntry :=
  { id := i.id
    name := i.display_name
    state := i.lifecycle_state
    shape := i.shape
    public_ip := instance_public_ip env i.id
    created := match i.time_created with | some t => t | none => "N/A" }

/-- The full listing of `list_instances` (`oci_oracle_mcp.py` lines 284-323):
filter, then build one entry per remaining instance. -/
def list_instances_result (env : ProviderEnv) (state_filter : Option String)
    (instances : List Inst) : List InstanceEntry :=
  (filter_instances state_filter instances).map (instance_entry env)

/-! ## C6: termination -/

/-- The receipt `terminate_instance` serialises on success
(`oci_oracle_mcp.py` lines 339-344). -/
structure TermReceipt where
  status : String
  message : String
  instance_id : String
  previous_state : String
  deriving Repr, DecidableEq

/-- Termination handler `terminate_instance` (`oci_oracle_mcp.py` lines
325-344): look the instance up first; when that fails, return the not-found
error without calling the provider; otherwise issue the termination request
and report the lifecycle state captured by the lookup that preceded it.  The
second component records the termination calls issued. -/
def terminate_instance (get_instance : String → Option Inst)
    (instance_id : String) : Except String TermReceipt × List String :=
  match get_instance instance_id with
  | none => (Except.error ("Error: Instance " ++ instance_id ++ " not found"), [])
  | some inst =>
    (Except.ok
      { status := "success"
        message := "Instance " ++ inst.display_name ++ " (" ++ instance_id
                     ++ ") is being terminated"
        instance_id := instance_id
        previous_state := inst.lifecycle_state },
     [instance_id])

/-! ## C7: launch rejection handling -/

/-- Output lines of the `ServiceError` handler of `launch_ubuntu`
(`oci-control.py` lines 145-155): the provider message, status and code,
then at most one hint chosen by `if e.status == 404 / elif "quota" in
e.message.lower() / elif "shape" in e.message.lower()`. -/
def launch_ubuntu_error_lines (message : String) (status : Nat) (code : String) :
    List String :=
  ["❌ Failed to launch: " ++ message,
   "   Status: " ++ toString status,
   "   Code: " ++ code]
  ++ (if status = 404 then
        ["💡 Try using the root compartment (tenancy OCID)"]
      else if strContains (lowerStr message) "quota" then
        ["💡 You may have hit quota limits for this shape"]
      else if strContains (lowerStr message) "shape" then
        ["💡 This shape might not be available in this AD"]
      else [])

/-- The `ServiceError` handler of `launch_ubuntu` ends the function: no
instance is produced and no further launch or poll call is made. -/
def launch_ubuntu_on_service_error (message : String) (status : Nat)
    (code : String) : Option Unit × List String :=
  (none, launch_ubuntu_error_lines message status code)

/-- Output lines of the `ServiceError` handler of `launch_staging_server`
(`launch_staging.py` lines 192-197): the provider message, then two
free-tier hint lines when `"QuotaExceeded" in str(e)`. -/
def launch_staging_error_lines (e_str message : String) : List String :=
  ["❌ Error launching instance: " ++ message]
  ++ (if strContains e_str "QuotaExceeded" then
        ["   You may have reached your free tier limit",
         "   Try terminating unused instances first"]
      else [])

/-- The `ServiceError` handler of `launch_staging_server` returns `None`:
the workflow ends in failure with the lines above as its surfaced output. -/
def launch_staging_on_service_error (e_str message : String) :
    Option String × List String :=
  (none, launch_staging_error_lines e_str message)

/-! ## C8: IP discovery after RUNNING -/

/-- Outcome of the post-RUNNING IP discovery of `launch_staging_server`. -/
inductive StagingIpOutcome where
  | gotIp (public_ip : Option String)
  | ipUnavailable
  deriving Repr, DecidableEq

/-- Post-RUNNING IP discovery of `launch_staging_server` (`launch_staging.py`
lines 150-190): with an attachment present, fetch the interface and succeed
with its public IP; with none, print `"❌ Could not get public IP"` and
return `None` — the distinct `ipUnavailable` outcome.  The second component
records termination calls issued: there are none on either path. -/
def staging_ip_discovery (vnic_attachments : List String)
    (get_vnic : String → Vnic) : StagingIpOutcome × List String :=
  match vnic_attachments with
  | [] => (StagingIpOutcome.ipUnavailable, [])
  | v :: _ => (StagingIpOutcome.gotIp (get_vnic v).public_ip, [])

/-- Post-RUNNING IP discovery of `launch_instance` (`oci_oracle_mcp.py`
lines 265-271): `vnic_attachments[0]` is indexed with no emptiness guard, so
an empty attachment list raises `IndexError("list index out of range")`;
otherwise the interface is fetched.  The second component records
termination calls issued: none on either path. -/
def mcp_ip_discovery (vnic_attachments : List String)
    (get_vnic : String → Vnic) : Except String (Option String) × List String :=
  match vnic_attachments with
  | [] => (Except.error "list index out of range", [])
  | v :: _ => (Except.ok (get_vnic v).public_ip, [])

/-! ## C9: the tool dispatcher -/

/-- Tool arguments, as an association list standing in for the JSON object
the dispatcher receives. -/
abbrev ToolArgs := List (String × String)

/-- The environment `call_tool` runs in: whether the provider SDK imported,
whether the clients are already initialised, what initialisation would do,
and what the routed handler returns (`Except.error` models the handler
raising). -/
structure ToolEnv where
  has_oci : Bool
  clients_ready : Bool
  init_oci : Except String Unit
  handler : String → ToolArgs → Except String String

/-- The tool names `call_tool` routes (`oci_oracle_mcp.py` lines 133-140). -/
def known_tools : List String :=
  ["oci_instance_launch", "oci_instance_list", "oci_instance_terminate",
   "oci_instance_get", "oci_network_list", "oci_config_check"]

/-- Tool dispatcher `call_tool` (`oci_oracle_mcp.py` lines 112-156): missing
SDK, initialisation failure, an unknown tool name and a raising handler each
yield a text result; no fault propagates to the caller. -/
def call_tool (env : ToolEnv) (name : String) (args : ToolArgs) : String :=
  if env.has_oci = false then
    "Error: OCI SDK not installed. Run: pip install oci"
  else
    match (if env.clients_ready then Except.ok () else env.init_oci) with
    | Except.error e => "Error initializing OCI: " ++ e
    | Except.ok _ =>
      if name ∈ known_tools then
        match env.handler name args with
        | Except.ok r => r
        | Except.error e => "Error executing " ++ name ++ ": " ++ e
      else
        "Unknown tool: " ++ name

/-! ## C10: launch specification assembly -/

/-- The flexible-shape configuration (`LaunchInstanceShapeConfigDetails`). -/
structure ShapeConfig where
  ocpus : Rat
  memory_in_gbs : Rat
  deriving Repr, DecidableEq

/-- The launch specification `launch_instance` assembles
(`oci_oracle_mcp.py` lines 234-251). -/
structure LaunchDetails where
  display_name : String
  image_id : String
  shape : String
  shape_config : Option ShapeConfig
  subnet_id : String
  assign_public_ip : Bool
  ssh_authorized_keys : String
  deriving Repr, DecidableEq

/-- Launch-specification assembly of `launch_instance` (`oci_oracle_mcp.py`
lines 234-251): the shape configuration carrying `ocpus` and `memory_gb` is
attached when `shape.endswith(".Flex")` and is `None` otherwise. -/
def mk_launch_details (name image_id shape : String) (ocpus memory_gb : Rat)
    (subnet_id ssh_key : String) : LaunchDetails :=
  { display_name := name
    image_id := image_id
    shape := shape
    shape_config :=
      if strEnds shape ".Flex" then some ⟨ocpus, memory_gb⟩ else none
    subnet_id := subnet_id
    assign_public_ip := true
    ssh_authorized_keys := ssh_key }

/-! ## Theorems -/

/-- Claim C1, counterexample: on a provider whose shape-filtered image query
is empty while the shape-free query is not, `launch_staging_server` resolves
no image and issues only the single filtered query — the required widening
retry never happens, refuting the claim for this resolver call site. -/
theorem C1_counterexample :
    (launch_staging_resolve_image c1_provider "Canonical Ubuntu" "22.04"
        "VM.Standard.A1.Flex").1 = none
  ∧ (launch_staging_resolve_image c1_provider "Canonical Ubuntu" "22.04"
        "VM.Standard.A1.Flex").2
      = [⟨"Canonical Ubuntu", "22.04", some "VM.Standard.A1.Flex"⟩]
  ∧ c1_provider ⟨"Canonical Ubuntu", "22.04", none⟩ ≠ [] := by
  refine ⟨rfl, rfl, ?_⟩
  decide

/-- Claim C1, amended: in `launch_ubuntu` (`oci-control.py`), an empty
shape-filtered image query is followed by exactly one retry with the shape
filter removed, and resolution fails if and only if that widened query is
also empty; `launch_staging_server` and the MCP `launch_instance` have no
such retry. -/
theorem C1_amended_theorem (list_images : ImageQuery → List Image)
    (os version shape : String)
    (h : list_images ⟨os, version, some shape⟩ = []) :
    (launch_ubuntu_resolve_image list_images os version shape).2
        = [⟨os, version, some shape⟩, ⟨os, version, none⟩]
  ∧ ((launch_ubuntu_resolve_image list_images os version shape).1 = none
        ↔ list_images ⟨os, version, none⟩ = []) := by
  simp [launch_ubuntu_resolve_image, h]

/-- Claim C1, witness: the amended theorem at the concrete provider of the
counterexample, where the widened retry succeeds. -/
theorem C1_amended_witness :
    (launch_ubuntu_resolve_image c1_provider "Canonical Ubuntu" "22.04"
        "VM.Standard.A1.Flex").2
      = [⟨"Canonical Ubuntu", "22.04", some "VM.Standard.A1.Flex"⟩,
         ⟨"Canonical Ubuntu", "22.04", none⟩]
  ∧ ((launch_ubuntu_resolve_image c1_provider "Canonical Ubuntu" "22.04"
        "VM.Standard.A1.Flex").1 = none
      ↔ c1_provider ⟨"Canonical Ubuntu", "22.04", none⟩ = []) :=
  C1_amended_theorem c1_provider "Canonical Ubuntu" "22.04"
    "VM.Standard.A1.Flex" rfl

/-- Claim C2, counterexample: the poll loop stops only on `"RUNNING"`.  On a
trace whose first poll returns the terminal state `"TERMINATED"`, the loop
keeps polling: with a lone `"TERMINATED"` it never finishes, and with
`"RUNNING"` scheduled afterwards a second (and third) poll is issued after a
terminal state was already observed — refuting the no-poll-after-terminal
part of the claim. -/
theorem C2_counterexample :
    poll_until_running ["TERMINATED"] = none
  ∧ poll_until_running ["TERMINATED", "RUNNING"] = some 2
  ∧ poll_until_running ["FAILED", "TERMINATED", "RUNNING"] = some 3 := by
  decide

/-- Claim C2, amended: the poll loop terminates at the first poll returning
`"RUNNING"` — on a trace whose first `"RUNNING"` follows `pre` polls of
other states, exactly `pre.length + 1` polls are issued and nothing after
the first `"RUNNING"` is consulted.  `"RUNNING"` is the only state that
stops the loop, and no maximum-wait budget exists in the in-repo loops. -/
theorem C2_amended_theorem (pre rest : List String)
    (h : ∀ s ∈ pre, s ≠ "RUNNING") :
    poll_until_running (pre ++ "RUNNING" :: rest) = some (pre.length + 1) := by
  induction pre with
  | nil => simp [poll_until_running]
  | cons s t ih =>
    have hs : ¬ (s = "RUNNING") := h s (by simp)
    have ht : ∀ x ∈ t, x ≠ "RUNNING" := fun x hx => h x (by simp [hx])
    simp [poll_until_running, hs, ih ht]

/-- Claim C2, witness: two non-RUNNING polls followed by `"RUNNING"` take
exactly three polls, whatever the trace schedules afterwards. -/
theorem C2_amended_witness :
    poll_until_running
        (["PROVISIONING", "STARTING"] ++ "RUNNING" :: ["TERMINATED"])
      = some 3 :=
  C2_amended_theorem ["PROVISIONING", "STARTING"] ["TERMINATED"] (by decide)

/-- Scanning subnets finds nothing when no subnet matches. -/
theorem find_matching_subnet_eq_none (selector : String) (l : List Subnet)
    (h : ∀ s ∈ l, subnet_matches selector s = false) :
    find_matching_subnet selector l = none := by
  induction l with
  | nil => rfl
  | cons a r ih =>
    have ha := h a (by simp)
    simp [find_matching_subnet, ha, ih (fun x hx => h x (by simp [hx]))]

/-- Scanning subnets returns the unique match wherever it sits. -/
theorem find_matching_subnet_unique (selector : String) (l : List Subnet)
    (t : Subnet) (ht : t ∈ l) (hm : subnet_matches selector t = true)
    (huniq : ∀ s ∈ l, subnet_matches selector s = true → s = t) :
    find_matching_subnet selector l = some t := by
  induction l with
  | nil => cases ht
  | cons a r ih =>
    by_cases ha : subnet_matches selector a = true
    · have hat : a = t := huniq a (by simp) ha
      subst hat
      simp [find_matching_subnet, ha]
    · have ht2 : t ∈ r := by
        cases List.mem_cons.mp ht with
        | inl h1 => exact absurd (h1 ▸ hm) ha
        | inr h1 => exact h1
      have ih2 := ih ht2 (fun x hx hmx => huniq x (by simp [hx]) hmx)
      have ha2 : subnet_matches selector a = false := by
        cases hb : subnet_matches selector a
        · rfl
        · exact absurd hb ha
      simp [find_matching_subnet, ha2, ih2]

/-- Claim C3: when exactly one subnet's lowercased display name contains the
selector, `launch_staging_server` selects that subnet regardless of its
position in the enumeration order; when no subnet matches, it falls back to
the first subnet in the returned order. -/
theorem C3_theorem (selector : String) (subnets : List Subnet) :
    (∀ t ∈ subnets, subnet_matches selector t = true →
        (∀ s ∈ subnets, subnet_matches selector s = true → s = t) →
        resolve_network selector subnets = some t)
  ∧ ((∀ s ∈ subnets, subnet_matches selector s = false) →
        resolve_network selector subnets = subnets.head?) := by
  constructor
  · intro t ht hm huniq
    unfold resolve_network
    rw [find_matching_subnet_unique selector subnets t ht hm huniq]
  · intro h
    unfold resolve_network
    rw [find_matching_subnet_eq_none selector subnets h]

/-- Claim C3, witness: with the source's selector `"public"`, the unique
match `"Public-Subnet"` is chosen from second position, past a first subnet
that does not match. -/
theorem C3_witness :
    resolve_network "public"
        [⟨"ocid1.subnet.a", "backend-net", "AD-1"⟩,
         ⟨"ocid1.subnet.b", "Public-Subnet", "AD-1"⟩]
      = some ⟨"ocid1.subnet.b", "Public-Subnet", "AD-1"⟩ :=
  ( C3_theorem "public"
      [⟨"ocid1.subnet.a", "backend-net", "AD-1"⟩,
       ⟨"ocid1.subnet.b", "Public-Subnet", "AD-1"⟩]).1
    ⟨"ocid1.subnet.b", "Public-Subnet", "AD-1"⟩
    (by decide) (by decide) (by decide)

/-- Claim C4, counterexample: with the empty string as the state filter,
Python's truthiness test skips filtering, so an instance whose
`lifecycle_state` (`"RUNNING"`) differs from the filter string (`""`) is
still returned — the output is not "exactly those instances whose
lifecycle_state equals the filter string" for every filter string. -/
theorem C4_counterexample :
    filter_instances (some "")
        [⟨"ocid1.instance.a", "web", "RUNNING", "VM.Standard.A1.Flex", none⟩]
      = [⟨"ocid1.instance.a", "web", "RUNNING", "VM.Standard.A1.Flex", none⟩]
  ∧ ("RUNNING" : String) ≠ "" := by
  decide

/-- Claim C4, amended: for every non-empty `state_filter`, `list_instances`
keeps exactly the instances whose `lifecycle_state` equals the filter by
exact, case-sensitive string equality; with no filter, or with an empty
string (falsy in Python), it returns all instances unchanged. -/
theorem C4_amended_theorem (s : String) (instances : List Inst) :
    (s ≠ "" → ∀ i : Inst,
        (i ∈ filter_instances (some s) instances
          ↔ i ∈ instances ∧ i.lifecycle_state = s))
  ∧ filter_instances none instances = instances
  ∧ filter_instances (some "") instances = instances := by
  refine ⟨?_, rfl, by simp [filter_instances]⟩
  intro hs i
  simp [filter_instances, hs, List.mem_filter]

/-- Claim C4, witness: the amended theorem at the filter `"RUNNING"` over a
two-instance batch. -/
theorem C4_amended_witness :
    (⟨"ocid1.instance.a", "web", "RUNNING", "VM.Standard.A1.Flex", none⟩ : Inst)
        ∈ filter_instances (some "RUNNING")
            [⟨"ocid1.instance.a", "web", "RUNNING", "VM.Standard.A1.Flex", none⟩,
             ⟨"ocid1.instance.b", "db", "STOPPED", "VM.Standard.A1.Flex", none⟩]
      ↔ (⟨"ocid1.instance.a", "web", "RUNNING", "VM.Standard.A1.Flex", none⟩ : Inst)
          ∈ [⟨"ocid1.instance.a", "web", "RUNNING", "VM.Standard.A1.Flex", none⟩,
             ⟨"ocid1.instance.b", "db", "STOPPED", "VM.Standard.A1.Flex", none⟩]
        ∧ (⟨"ocid1.instance.a", "web", "RUNNING", "VM.Standard.A1.Flex", none⟩
            : Inst).lifecycle_state = "RUNNING" :=
  ( C4_amended_theorem "RUNNING"
      [⟨"ocid1.instance.a", "web", "RUNNING", "VM.Standard.A1.Flex", none⟩,
       ⟨"ocid1.instance.b", "db", "STOPPED", "VM.Standard.A1.Flex", none⟩]).1
    (by decide)
    ⟨"ocid1.instance.a", "web", "RUNNING", "VM.Standard.A1.Flex", none⟩

/-- The per-instance IP resolution consults only that instance's attachment
lookup and the interface fetch on the head attachment it yields. -/
theorem instance_public_ip_congr (env env2 : ProviderEnv) (id : String)
    (h1 : env.vnic_attachments id = env2.vnic_attachments id)
    (h2 : ∀ v rest, env.vnic_attachments id = some (v :: rest) →
        env.get_vnic v = env2.get_vnic v) :
    instance_public_ip env id = instance_public_ip env2 id := by
  unfold instance_public_ip
  rw [← h1]
  cases ha : env.vnic_attachments id with
  | none => rfl
  | some l =>
    cases l with
    | nil => rfl
    | cons v t =>
      dsimp only
      rw [h2 v t ha]

/-- Claim C5: a raising IP lookup for one instance — whether the attachment
lookup itself raises or the interface-detail fetch on its first attachment
raises — never aborts the listing: the result still has one entry per
filtered instance, the failing instance's entry carries
`public_ip = "N/A"`, and every other instance's entry is unchanged between
an environment where the lookup fails and one where it does not, as long as
the two agree on that other instance's own attachment lookup and on the
interface fetch it consults. -/
theorem C5_theorem (env env2 : ProviderEnv) (state_filter : Option String)
    (instances : List Inst) (i : Inst)
    (hfail : env.vnic_attachments i.id = none
      ∨ ∃ v rest, env.vnic_attachments i.id = some (v :: rest)
          ∧ env.get_vnic v = none)
    (hatt : ∀ s, s ≠ i.id → env.vnic_attachments s = env2.vnic_attachments s)
    (hv : ∀ s, s ≠ i.id → ∀ v rest,
        env.vnic_attachments s = some (v :: rest) →
        env.get_vnic v = env2.get_vnic v) :
    (list_instances_result env state_filter instances).length
        = (filter_instances state_filter instances).length
  ∧ (i ∈ filter_instances state_filter instances →
        instance_entry env i ∈ list_instances_result env state_filter instances)
  ∧ (instance_entry env i).public_ip = "N/A"
  ∧ (∀ j ∈ instances, j.id ≠ i.id →
        instance_entry env j = instance_entry env2 j) := by
  refine ⟨by simp [list_instances_result], ?_, ?_, ?_⟩
  · intro hmem
    exact List.mem_map_of_mem _ hmem
  · cases hfail with
    | inl h => simp [instance_entry, instance_public_ip, h]
    | inr h =>
      obtain ⟨v, rest, h1, h2⟩ := h
      simp [instance_entry, instance_public_ip, h1, h2]
  · intro j hj hne
    unfold instance_entry
    rw [instance_public_ip_congr env env2 j.id (hatt j.id hne) (hv j.id hne)]

/-- An environment in which exactly the first instance's attachment lookup
raises. -/
def c5_env : ProviderEnv :=
  { vnic_attachments := fun s => if s = "ocid1.instance.a" then none else some []
    get_vnic := fun _ => none }

/-- The same environment with the failure healed. -/
def c5_env2 : ProviderEnv :=
  { vnic_attachments := fun _ => some []
    get_vnic := fun _ => none }

/-- An environment in which exactly the first instance's interface-detail
fetch raises: its attachment lookup succeeds with one attachment, but the
fetch of that interface fails; the second instance's lookup and fetch both
succeed. -/
def c5_env3 : ProviderEnv :=
  { vnic_attachments := fun s =>
      if s = "ocid1.instance.a" then some ["ocid1.vnic.a"]
      else some ["ocid1.vnic.b"]
    get_vnic := fun v =>
      if v = "ocid1.vnic.a" then none else some ⟨some "129.146.5.6"⟩ }

/-- The same environment with the interface fetch healed. -/
def c5_env4 : ProviderEnv :=
  { vnic_attachments := fun s =>
      if s = "ocid1.instance.a" then some ["ocid1.vnic.a"]
      else some ["ocid1.vnic.b"]
    get_vnic := fun v =>
      if v = "ocid1.vnic.a" then some ⟨some "129.146.1.2"⟩
      else some ⟨some "129.146.5.6"⟩ }

/-- Claim C5, witness: both failure modes.  In `c5_env` the first instance's
attachment lookup raises; in `c5_env3` it is the interface-detail fetch that
raises.  In each, the failing instance's entry shows `"N/A"` and the other
instance's entry equals its entry in the healed environment (`c5_env2`,
`c5_env4`). -/
theorem C5_witness :
    (instance_entry c5_env
        ⟨"ocid1.instance.a", "web", "RUNNING", "VM.Standard.A1.Flex", none⟩).public_ip
      = "N/A"
  ∧ instance_entry c5_env
        ⟨"ocid1.instance.b", "db", "RUNNING", "VM.Standard.A1.Flex", none⟩
      = instance_entry c5_env2
          ⟨"ocid1.instance.b", "db", "RUNNING", "VM.Standard.A1.Flex", none⟩
  ∧ (instance_entry c5_env3
        ⟨"ocid1.instance.a", "web", "RUNNING", "VM.Standard.A1.Flex", none⟩).public_ip
      = "N/A"
  ∧ instance_entry c5_env3
        ⟨"ocid1.instance.b", "db", "RUNNING", "VM.Standard.A1.Flex", none⟩
      = instance_entry c5_env4
          ⟨"ocid1.instance.b", "db", "RUNNING", "VM.Standard.A1.Flex", none⟩ := by
  have hA := C5_theorem c5_env c5_env2 (some "RUNNING")
      [⟨"ocid1.instance.a", "web", "RUNNING", "VM.Standard.A1.Flex", none⟩,
       ⟨"ocid1.instance.b", "db", "RUNNING", "VM.Standard.A1.Flex", none⟩]
      ⟨"ocid1.instance.a", "web", "RUNNING", "VM.Standard.A1.Flex", none⟩
      (Or.inl (by simp [c5_env]))
      (fun s hs => by simp [c5_env, c5_env2, hs])
      (fun s hs v rest h => by simp [c5_env, hs] at h)
  have hB := C5_theorem c5_env3 c5_env4 (some "RUNNING")
      [⟨"ocid1.instance.a", "web", "RUNNING", "VM.Standard.A1.Flex", none⟩,
       ⟨"ocid1.instance.b", "db", "RUNNING", "VM.Standard.A1.Flex", none⟩]
      ⟨"ocid1.instance.a", "web", "RUNNING", "VM.Standard.A1.Flex", none⟩
      (Or.inr ⟨"ocid1.vnic.a", [], by simp [c5_env3], by simp [c5_env3]⟩)
      (fun s hs => rfl)
      (fun s hs v rest h => by
        simp [c5_env3, hs] at h
        obtain ⟨h1, h2⟩ := h
        subst h1
        decide)
  exact ⟨hA.2.2.1, hA.2.2.2 _ (by simp) (by decide),
         hB.2.2.1, hB.2.2.2 _ (by simp) (by decide)⟩

/-- Claim C6: when the lookup of the current instance fails,
`terminate_instance` returns the not-found error and issues no termination
call; when the lookup succeeds, it issues exactly the one termination
request and the receipt reports the lifecycle state the pre-request lookup
captured. -/
theorem C6_theorem (get_instance : String → Option Inst) (instance_id : String) :
    (get_instance instance_id = none →
        (terminate_instance get_instance instance_id).2 = []
      ∧ (terminate_instance get_instance instance_id).1
          = Except.error ("Error: Instance " ++ instance_id ++ " not found"))
  ∧ (∀ inst, get_instance instance_id = some inst →
        (terminate_instance get_instance instance_id).2 = [instance_id]
      ∧ ∃ r, (terminate_instance get_instance instance_id).1 = Except.ok r
          ∧ r.previous_state = inst.lifecycle_state) := by
  constructor
  · intro h
    simp [terminate_instance, h]
  · intro inst h
    refine ⟨by simp [terminate_instance, h], ?_⟩
    refine ⟨{ status := "success"
              message := "Instance " ++ inst.display_name ++ " (" ++ instance_id
                           ++ ") is being terminated"
              instance_id := instance_id
              previous_state := inst.lifecycle_state }, ?_, rfl⟩
    simp [terminate_instance, h]

/-- A provider world holding exactly one known instance. -/
def c6_world : String → Option Inst :=
  fun id =>
    if id = "ocid1.instance.a"
    then some ⟨"ocid1.instance.a", "web", "RUNNING", "VM.Standard.A1.Flex", none⟩
    else none

/-- Claim C6, witness: an unknown id yields the not-found error with no
termination call issued; the known id yields one termination call and a
receipt carrying the pre-request state `"RUNNING"`. -/
theorem C6_witness :
    ((terminate_instance c6_world "ocid1.instance.zzz").2 = []
      ∧ (terminate_instance c6_world "ocid1.instance.zzz").1
          = Except.error ("Error: Instance " ++ "ocid1.instance.zzz" ++ " not found"))
  ∧ ((terminate_instance c6_world "ocid1.instance.a").2 = ["ocid1.instance.a"]
      ∧ ∃ r, (terminate_instance c6_world "ocid1.instance.a").1 = Except.ok r
          ∧ r.previous_state = "RUNNING") :=
  ⟨(C6_theorem c6_world "ocid1.instance.zzz").1 (by decide),
   (C6_theorem c6_world "ocid1.instance.a").2
     ⟨"ocid1.instance.a", "web", "RUNNING", "VM.Standard.A1.Flex", none⟩
     (by decide)⟩

/-- Claim C7, counterexample: on a quota-exceeded rejection (the handler's
own test `"QuotaExceeded" in str(e)` fires), `launch_staging_server` fails
and surfaces the provider message — but no surfaced line contains the hint
string `"quota"`, and the added hint lines do not contain it even
case-insensitively; the claim's required `"quota"` category hint is absent
on this workflow. -/
theorem C7_counterexample :
    (launch_staging_on_service_error "QuotaExceeded" "QuotaExceeded").1 = none
  ∧ launch_staging_error_lines "QuotaExceeded" "QuotaExceeded"
      = ["❌ Error launching instance: QuotaExceeded",
         "   You may have reached your free tier limit",
         "   Try terminating unused instances first"]
  ∧ (∀ line ∈ launch_staging_error_lines "QuotaExceeded" "QuotaExceeded",
        strContains line "quota" = false)
  ∧ (∀ line ∈ (launch_staging_error_lines "QuotaExceeded" "QuotaExceeded").drop 1,
        strContains (lowerStr line) "quota" = false) := by
  decide

/-- Claim C7, amended: in `launch_ubuntu` (`oci-control.py`), a rejection
whose lowercased message contains `"quota"` and whose status is not 404
produces no instance (the workflow fails) and surfaces both the provider's
message and a hint line containing `"quota"`; `launch_staging_server`
surfaces free-tier guidance without the word `"quota"`, and a 404-status
rejection receives the compartment hint instead. -/
theorem C7_amended_theorem (message : String) (status : Nat) (code : String)
    (hq : strContains (lowerStr message) "quota" = true) (h404 : status ≠ 404) :
    (launch_ubuntu_on_service_error message status code).1 = none
  ∧ ("❌ Failed to launch: " ++ message)
      ∈ launch_ubuntu_error_lines message status code
  ∧ "💡 You may have hit quota limits for this shape"
      ∈ launch_ubuntu_error_lines message status code
  ∧ strContains
        (lowerStr "💡 You may have hit quota limits for this shape") "quota"
      = true := by
  refine ⟨rfl, ?_, ?_, by decide⟩
  · simp [launch_ubuntu_error_lines]
  · simp [launch_ubuntu_error_lines, hq, h404]

/-- Claim C7, witness: the amended theorem at a concrete quota rejection
with status 400. -/
theorem C7_amended_witness :
    (launch_ubuntu_on_service_error "Quota exceeded for shape VM.Standard.A1.Flex"
        400 "LimitExceeded").1 = none
  ∧ ("❌ Failed to launch: " ++ "Quota exceeded for shape VM.Standard.A1.Flex")
      ∈ launch_ubuntu_error_lines "Quota exceeded for shape VM.Standard.A1.Flex"
          400 "LimitExceeded"
  ∧ "💡 You may have hit quota limits for this shape"
      ∈ launch_ubuntu_error_lines "Quota exceeded for shape VM.Standard.A1.Flex"
          400 "LimitExceeded"
  ∧ strContains
        (lowerStr "💡 You may have hit quota limits for this shape") "quota"
      = true :=
  C7_amended_theorem "Quota exceeded for shape VM.Standard.A1.Flex" 400
    "LimitExceeded" (by decide) (by decide)

/-- Claim C8, counterexample: in the MCP `launch_instance`, an empty
attachment list after RUNNING raises `IndexError` from the unguarded
`vnic_attachments[0]`, and the dispatcher surfaces it as the generic
`"Error executing …"` text — not a distinct `IPUnavailableError` report —
refuting the claim for this workflow (no termination is issued either
way). -/
theorem C8_counterexample :
    mcp_ip_discovery [] (fun _ => ⟨none⟩)
      = (Except.error "list index out of range", [])
  ∧ call_tool
      { has_oci := true
        clients_ready := true
        init_oci := Except.ok ()
        handler := fun _ _ =>
          (mcp_ip_discovery [] (fun _ => ⟨none⟩)).1.map (fun _ => "launched") }
      "oci_instance_launch" []
      = "Error executing oci_instance_launch: list index out of range" := by
  constructor
  · rfl
  · rfl

/-- Claim C8, amended: with the instance RUNNING and no attachment yet,
`launch_staging_server` reports the distinct `ipUnavailable` outcome (not a
success carrying an IP) and issues no termination call; the MCP
`launch_instance` instead raises an index error surfaced as a generic tool
error, and it issues no termination call either. -/
theorem C8_amended_theorem (get_vnic : String → Vnic) :
    staging_ip_discovery [] get_vnic = (StagingIpOutcome.ipUnavailable, [])
  ∧ (∀ ip, StagingIpOutcome.ipUnavailable ≠ StagingIpOutcome.gotIp ip)
  ∧ (mcp_ip_discovery [] get_vnic).2 = [] := by
  refine ⟨rfl, ?_, rfl⟩
  intro ip
  simp

/-- Claim C8, witness: the amended theorem at a concrete interface fetch. -/
theorem C8_amended_witness :
    staging_ip_discovery [] (fun _ => ⟨some "129.146.1.1"⟩)
      = (StagingIpOutcome.ipUnavailable, [])
  ∧ StagingIpOutcome.ipUnavailable ≠ StagingIpOutcome.gotIp (some "129.146.1.1")
  ∧ (mcp_ip_discovery [] (fun _ => ⟨some "129.146.1.1"⟩)).2 = [] :=
  ⟨(C8_amended_theorem (fun _ => ⟨some "129.146.1.1"⟩)).1,
   (C8_amended_theorem (fun _ => ⟨some "129.146.1.1"⟩)).2.1 (some "129.146.1.1"),
   (C8_amended_theorem (fun _ => ⟨some "129.146.1.1"⟩)).2.2⟩

/-- The initialisation step of the dispatcher succeeds when the clients are
already initialised or initialisation returns cleanly. -/
theorem init_step_ok (env : ToolEnv)
    (h : env.clients_ready = true ∨ env.init_oci = Except.ok ()) :
    (if env.clients_ready then Except.ok () else env.init_oci)
      = Except.ok () := by
  cases hc : env.clients_ready with
  | true => simp
  | false =>
    cases h with
    | inl h1 => rw [hc] at h1; cases h1
    | inr h1 => simp [h1]

/-- Claim C9: for every environment, tool name (known or not) and argument
list, the dispatcher returns a text result — a missing SDK, a raising
initialisation, an unknown tool name and a raising handler each map to the
corresponding error text, and no fault propagates. -/
theorem C9_theorem (env : ToolEnv) (name : String) (args : ToolArgs) :
    (env.has_oci = false →
        call_tool env name args
          = "Error: OCI SDK not installed. Run: pip install oci")
  ∧ (∀ e, env.has_oci = true → env.clients_ready = false →
        env.init_oci = Except.error e →
        call_tool env name args = "Error initializing OCI: " ++ e)
  ∧ (env.has_oci = true →
        (env.clients_ready = true ∨ env.init_oci = Except.ok ()) →
        name ∉ known_tools →
        call_tool env name args = "Unknown tool: " ++ name)
  ∧ (∀ e, env.has_oci = true →
        (env.clients_ready = true ∨ env.init_oci = Except.ok ()) →
        name ∈ known_tools → env.handler name args = Except.error e →
        call_tool env name args = "Error executing " ++ name ++ ": " ++ e) := by
  refine ⟨?_, ?_, ?_, ?_⟩
  · intro h
    simp [call_tool, h]
  · intro e h1 h2 h3
    simp [call_tool, h1, h2, h3]
  · intro h1 h2 h3
    simp [call_tool, h1, init_step_ok env h2, h3]
  · intro e h1 h2 h3 h4
    simp [call_tool, h1, init_step_ok env h2, h3, h4]

/-- A dispatcher environment whose routed handler raises. -/
def c9_env : ToolEnv :=
  { has_oci := true
    clients_ready := true
    init_oci := Except.ok ()
    handler := fun _ _ => Except.error "boom" }

/-- Claim C9, witness: a raising handler and an unknown tool name both come
back as text results. -/
theorem C9_witness :
    call_tool c9_env "oci_instance_list" []
        = "Error executing oci_instance_list: boom"
  ∧ call_tool c9_env "not_a_tool" [] = "Unknown tool: not_a_tool" :=
  ⟨(C9_theorem c9_env "oci_instance_list" []).2.2.2 "boom" rfl (Or.inl rfl)
     (by decide) rfl,
   (C9_theorem c9_env "not_a_tool" []).2.2.1 rfl (Or.inl rfl) (by decide)⟩

/-- Claim C10: the launch specification of the MCP `launch_instance`
carries the flexible-shape CPU/memory configuration exactly when the shape
name ends with `".Flex"`; for any other shape the supplied `ocpus` and
`memory_gb` are omitted. -/
theorem C10_theorem (name image_id shape : String) (ocpus memory_gb : Rat)
    (subnet_id ssh_key : String) :
    ((mk_launch_details name image_id shape ocpus memory_gb subnet_id
          ssh_key).shape_config = some ⟨ocpus, memory_gb⟩
        ↔ strEnds shape ".Flex" = true)
  ∧ (strEnds shape ".Flex" = false →
        (mk_launch_details name image_id shape ocpus memory_gb subnet_id
            ssh_key).shape_config = none) := by
  by_cases h : strEnds shape ".Flex" = true
  · simp [mk_launch_details, h]
  · have h2 : strEnds shape ".Flex" = false := by
      cases hb : strEnds shape ".Flex"
      · rfl
      · exact absurd hb h
    simp [mk_launch_details, h2]

/-- Claim C10, witness: a `.Flex` shape gets the configuration, a fixed
shape does not. -/
theorem C10_witness :
    (mk_launch_details "staging-server" "ocid1.image.widened"
        "VM.Standard.A1.Flex" 2 12 "ocid1.subnet.b"
        "ssh-ed25519 AAAA").shape_config = some ⟨2, 12⟩
  ∧ (mk_launch_details "micro" "ocid1.image.widened"
        "VM.Standard.E2.1.Micro" 2 12 "ocid1.subnet.b"
        "ssh-ed25519 AAAA").shape_config = none :=
  ⟨( C10_theorem "staging-server" "ocid1.image.widened" "VM.Standard.A1.Flex"
      2 12 "ocid1.subnet.b" "ssh-ed25519 AAAA").1.mpr (by decide),
   ( C10_theorem "micro" "ocid1.image.widened" "VM.Standard.E2.1.Micro"
      2 12 "ocid1.subnet.b" "ssh-ed25519 AAAA").2 (by decide)⟩

end OCI
